import Mathlib

/-!
Verification of the XRSS caching and refresh-coordination layer.

Shallow embedding of src/xrss/main.py and src/xrss/utils.py:
  - tweet text is modelled as a list of characters;
  - a tweet's created_at is modelled by its parsed timestamp (a natural
    number), since the code always parses the fixed-format timestamp string
    before comparing;
  - the Redis cache is an association list from string keys to typed values
    (JSON serialization is treated as the identity embedding);
  - the upstream twikit client is a record of response functions, with
    errors as an explicit sum;
  - async control flow is sequentialized; the number of rate-limited
    upstream calls performed is returned explicitly.
-/

namespace XRSS

/-- Author data of a nested reply tweet, as consumed by the code
(screen_name and id fields only). -/
structure ReplyUser where
  screen_name : String
  id : String
deriving DecidableEq, Repr

/-- A nested reply tweet, with exactly the fields the code reads. -/
structure TweetRef where
  id : String
  full_text : List Char
  user : ReplyUser
  created_at : Nat
deriving DecidableEq, Repr

/-- A raw upstream tweet, with exactly the fields read by
refresh_user_tweets_cache and _get_tweet_type.  Optional object-valued
fields of the twikit Tweet are modelled as options, since the code only
tests them against None (the thread and retweeted_tweet payloads are
never inspected). -/
structure Tweet where
  id : String
  created_at : Nat
  full_text : List Char
  thread : Option Unit
  retweeted_tweet : Option Unit
  replies : Option (List TweetRef)
  in_reply_to : Option String
  is_quote_status : Bool
deriving DecidableEq, Repr

/-- The literal retweet marker checked by clean_tweet. -/
def rtMarker : List Char := 'R' :: 'T' :: ' ' :: '@' :: []

/-- clean_tweet from src/xrss/utils.py: if the text starts with the
retweet marker and contains a colon, drop everything up to two characters
past the first colon; otherwise return the text unchanged. -/
def clean_tweet (tweet : List Char) : List Char :=
  if rtMarker.isPrefixOf tweet then
    match tweet.findIdx? (fun c => c == ':') with
    | some colon_index => tweet.drop (colon_index + 2)
    | none => tweet
  else tweet

/-- _get_tweet_type from src/xrss/main.py: first-match classification of a
tweet into Thread / Retweet / Reply / Quote / Post. -/
def _get_tweet_type (tweet : Tweet) : String :=
  if tweet.thread.isSome then "Thread"
  else if tweet.retweeted_tweet.isSome then "Retweet"
  else if (tweet.replies.isSome && decide (0 < (tweet.replies.getD []).length))
      || tweet.in_reply_to.isSome then "Reply"
  else if tweet.is_quote_status then "Quote"
  else "Post"

/-- The dedup loop of refresh_user_tweets_cache: walk the concatenated
batches keeping a tweet only when its id has not been seen yet.  The seen
accumulator mirrors the seen_tweet_ids set of the code. -/
def dedupeTweets : List Tweet → List String → List Tweet
  | [], _ => []
  | t :: ts, seen =>
    if t.id ∈ seen then dedupeTweets ts seen
    else t :: dedupeTweets ts (t.id :: seen)

/-- Sort relation used by the refresh pipeline: descending by parsed
creation time (a precedes b when b's timestamp is at most a's). -/
def tweetGE (a b : Tweet) : Prop := b.created_at ≤ a.created_at

instance : DecidableRel tweetGE :=
  fun a b => inferInstanceAs (Decidable (b.created_at ≤ a.created_at))

instance : IsTotal Tweet tweetGE := ⟨fun a b => Nat.le_total b.created_at a.created_at⟩

instance : IsTrans Tweet tweetGE := ⟨fun _ _ _ h1 h2 => Nat.le_trans h2 h1⟩

/-- The stable descending sort of the refresh pipeline
(all_tweets.sort with reverse=True on the parsed creation time; Python's
sort is stable, as is insertion sort). -/
def sortTweetsDesc (l : List Tweet) : List Tweet := l.insertionSort tweetGE

/-- The merge step of refresh_user_tweets_cache on two fetched batches:
dedupe by id in batch-then-within-batch order, then stable-sort by
creation time descending. -/
def mergedTweets (b1 b2 : List Tweet) : List Tweet :=
  sortTweetsDesc (dedupeTweets (b1 ++ b2) [])

/-- A processed nested reply, as serialized into the cache. -/
structure ProcessedReply where
  id : String
  full_text : List Char
  username : String
  user_id : String
  created_at : Nat
deriving DecidableEq, Repr

/-- A processed tweet, as serialized into the cache by
refresh_user_tweets_cache. -/
structure ProcessedTweet where
  created_at : Nat
  type : String
  id : String
  full_text : List Char
  in_reply_to : List ProcessedReply
deriving DecidableEq, Repr

/-- The per-reply dictionary built by refresh_user_tweets_cache. -/
def processReply (r : TweetRef) : ProcessedReply :=
  { id := r.id
    full_text := clean_tweet r.full_text
    username := r.user.screen_name
    user_id := r.user.id
    created_at := r.created_at }

/-- The per-tweet dictionary built by refresh_user_tweets_cache:
classify, clean the text, and snapshot the attached replies. -/
def processTweet (t : Tweet) : ProcessedTweet :=
  { created_at := t.created_at
    type := _get_tweet_type t
    id := t.id
    full_text := clean_tweet t.full_text
    in_reply_to := (t.replies.getD []).map processReply }

/-- User profile snapshot stored under the user cache key. -/
structure Profile where
  profile_image_url : String
  name : String
  screen_name : String
deriving DecidableEq, Repr

/-- The upstream twikit user object, with the fields the code reads. -/
structure TUser where
  profile_image_url : String
  name : String
  screen_name : String
deriving DecidableEq, Repr

/-- The profile dictionary refresh_user_tweets_cache serializes from the
fetched user. -/
def profileOf (user : TUser) : Profile :=
  { profile_image_url := user.profile_image_url
    name := user.name
    screen_name := user.screen_name }

/-- A cached value: either a serialized profile or a serialized processed
tweet list (JSON encoding is treated as the identity). -/
inductive CacheValue where
  | profileVal (p : Profile)
  | tweetsVal (ts : List ProcessedTweet)
deriving DecidableEq, Repr

/-- The Redis store: an association list from keys to values; a set
shadows earlier entries for the same key. -/
abbrev Cache := List (String × CacheValue)

/-- redis.get: the value under the first (most recent) entry for the key,
if any.  Expired entries are treated as absent, so only live entries are
modelled. -/
def cacheGet (c : Cache) (k : String) : Option CacheValue :=
  (c.find? (fun e => e.1 == k)).map (fun e => e.2)

/-- redis.setex: unconditional overwrite of the key with a fresh TTL. -/
def cacheSet (c : Cache) (k : String) (v : CacheValue) : Cache :=
  (k, v) :: c

/-- The profile cache key used by the code: the string user: followed by
the username. -/
def userKey (username : String) : String := "user:" ++ username

/-- The tweets cache key used by the code: the string tweets: followed by
the username. -/
def tweetsKey (username : String) : String := "tweets:" ++ username

/-- Upstream errors raised by the twikit client: UserNotFound, or any
other (transient) exception. -/
inductive UErr where
  | userNotFound
  | transient (msg : String)
deriving DecidableEq, Repr

/-- Errors propagated out of refresh_user_tweets_cache: the HTTPException
raised on UserNotFound, or the re-raised upstream exception. -/
inductive RefreshError where
  | httpException (status : Nat) (detail : String)
  | upstreamError (msg : String)
deriving DecidableEq, Repr

instance {ε α : Type} [DecidableEq ε] [DecidableEq α] : DecidableEq (Except ε α) :=
  fun a b =>
    match a, b with
    | .error e1, .error e2 =>
      if h : e1 = e2 then isTrue (by rw [h])
      else isFalse (by intro hh; cases hh; exact h rfl)
    | .error _, .ok _ => isFalse (by intro hh; cases hh)
    | .ok _, .error _ => isFalse (by intro hh; cases hh)
    | .ok a1, .ok a2 =>
      if h : a1 = a2 then isTrue (by rw [h])
      else isFalse (by intro hh; cases hh; exact h rfl)

/-- How the except clauses of refresh_user_tweets_cache translate an
upstream exception: UserNotFound becomes HTTPException 404, anything else
is logged and re-raised. -/
def refreshErrorOf : UErr → RefreshError
  | .userNotFound => .httpException 404 "User not found"
  | .transient msg => .upstreamError msg

/-- The upstream twikit client, as a record of response functions:
get_user_by_screen_name for a handle, and get_tweets on a user object for
a category string. -/
structure Upstream where
  get_user_by_screen_name : String → Except UErr TUser
  get_tweets : TUser → String → Except UErr (List Tweet)

/-- refresh_user_tweets_cache from src/xrss/main.py, sequentialized:
fetch the user, store the profile snapshot, fetch the two tweet batches,
merge/classify/clean them and store the processed list; on an upstream
error, translate it via the except clauses and leave the remaining writes
unperformed.  The returned number counts rate-limited upstream calls
(both gathered batch fetches run even when one fails). -/
def refresh_user_tweets_cache (up : Upstream) (cache : Cache) (username : String) :
    Cache × Except RefreshError Unit × Nat :=
  match up.get_user_by_screen_name username with
  | .error e => (cache, .error (refreshErrorOf e), 1)
  | .ok user =>
    let cache1 := cacheSet cache (userKey username) (.profileVal (profileOf user))
    match up.get_tweets user "Tweets" with
    | .error e => (cache1, .error (refreshErrorOf e), 3)
    | .ok batch1 =>
      match up.get_tweets user "Replies" with
      | .error e => (cache1, .error (refreshErrorOf e), 3)
      | .ok batch2 =>
        let processed := (mergedTweets batch1 batch2).map processTweet
        (cacheSet cache1 (tweetsKey username) (.tweetsVal processed), .ok (), 3)

/-- Reading a tweets cache value back as a post list
(list of json.loads of the stored string); a value of the wrong shape is
unreachable from refresh-written states. -/
def asTweetList : CacheValue → List ProcessedTweet
  | .tweetsVal ts => ts
  | _ => []

/-- get_cached_tweets from src/xrss/main.py: return the cached list when
the key is present; otherwise run refresh_user_tweets_cache synchronously
and re-read the key, returning the empty list when it is still absent.  A
refresh error propagates. -/
def get_cached_tweets (up : Upstream) (cache : Cache) (username : String) :
    Cache × Except RefreshError (List ProcessedTweet) × Nat :=
  match cacheGet cache (tweetsKey username) with
  | some v => (cache, .ok (asTweetList v), 0)
  | none =>
    match refresh_user_tweets_cache up cache username with
    | (c2, .error e, n) => (c2, .error e, n)
    | (c2, .ok _, n) =>
      match cacheGet c2 (tweetsKey username) with
      | some v => (c2, .ok (asTweetList v), n)
      | none => (c2, .ok [], n)

/-- get_cached_user from src/xrss/main.py: the cached profile under the
user key, if any. -/
def get_cached_user (cache : Cache) (username : String) : Option Profile :=
  match cacheGet cache (userKey username) with
  | some (.profileVal p) => some p
  | _ => none

/-- The filter predicate of the POST endpoint get_tweets: a tweet is kept
when its type is enabled by the corresponding include flag. -/
def filterTweets (include_posts include_replies include_retweets include_quotes : Bool)
    (ts : List ProcessedTweet) : List ProcessedTweet :=
  ts.filter (fun t =>
    (include_posts && t.type == "Post")
    || (include_replies && t.type == "Reply")
    || (include_retweets && t.type == "Retweet")
    || (include_quotes && t.type == "Quote"))

/-- The per-user pipeline of the POST endpoint get_tweets: read through
the cache, then filter the returned list by the include flags
(authentication and background-task glue are out of scope). -/
def get_tweets_for_user (up : Upstream) (cache : Cache) (username : String)
    (include_posts include_replies include_retweets include_quotes : Bool) :
    Cache × Except RefreshError (List ProcessedTweet) × Nat :=
  match get_cached_tweets up cache username with
  | (c2, r, n) =>
    (c2, r.map (filterTweets include_posts include_replies include_retweets include_quotes), n)

/-! Concrete fixtures (the scenario of spec section 8: handle alice, batch
A holds a plain post with id 1 and a retweet with id 2, batch B holds the
duplicate id 2 and a reply with id 3). -/

/-- Example upstream user for the handle alice. -/
def exUser : TUser :=
  { profile_image_url := "https://pbs.example/alice_normal.jpg"
    name := "Alice"
    screen_name := "alice" }

/-- Example plain post (id 1, oldest). -/
def exTweetPost : Tweet :=
  { id := "1", created_at := 10, full_text := "hello world".toList
    thread := none, retweeted_tweet := none, replies := some []
    in_reply_to := none, is_quote_status := false }

/-- Example retweet (id 2). -/
def exTweetRetweet : Tweet :=
  { id := "2", created_at := 20, full_text := "RT @bob: hi".toList
    thread := none, retweeted_tweet := some (), replies := none
    in_reply_to := none, is_quote_status := false }

/-- Example reply (id 3, newest, replying to id 9). -/
def exTweetReply : Tweet :=
  { id := "3", created_at := 30, full_text := "indeed".toList
    thread := none, retweeted_tweet := none, replies := none
    in_reply_to := some "9", is_quote_status := false }

/-- Example thread member tweet. -/
def exTweetThread : Tweet :=
  { id := "4", created_at := 40, full_text := "thread part".toList
    thread := some (), retweeted_tweet := none, replies := none
    in_reply_to := some "1", is_quote_status := true }

/-- A healthy upstream client serving the section-8 scenario for every
handle. -/
def exUpstream : Upstream :=
  { get_user_by_screen_name := fun _ => .ok exUser
    get_tweets := fun _ category =>
      if category == "Tweets" then .ok [exTweetPost, exTweetRetweet]
      else .ok [exTweetRetweet, exTweetReply] }

/-- An upstream client that knows no handle. -/
def exUpstreamNotFound : Upstream :=
  { get_user_by_screen_name := fun _ => .error .userNotFound
    get_tweets := fun _ _ => .ok [] }

/-- An upstream client whose user lookup succeeds but whose tweet fetches
fail transiently. -/
def exUpstreamTweetsFail : Upstream :=
  { get_user_by_screen_name := fun _ => .ok exUser
    get_tweets := fun _ _ => .error (.transient "boom") }

/-- A stale cached profile for alice, different from the live one. -/
def exOldProfile : Profile :=
  { profile_image_url := "https://pbs.example/alice_old.jpg"
    name := "Old Alice"
    screen_name := "alice" }

/-- A cache already holding a profile entry for alice. -/
def exCacheWithProfile : Cache := [(userKey "alice", .profileVal exOldProfile)]

/-- A cached processed tweet of type Thread, for the filtering claims. -/
def exCachedThreadTweet : ProcessedTweet :=
  { created_at := 40, type := "Thread", id := "4"
    full_text := "thread part".toList, in_reply_to := [] }

/-- A cached processed tweet of type Post. -/
def exCachedPostTweet : ProcessedTweet :=
  { created_at := 10, type := "Post", id := "1"
    full_text := "hello world".toList, in_reply_to := [] }

/-- A cache whose tweets entry for alice holds a Thread-typed and a
Post-typed tweet. -/
def exCacheWithTweets : Cache :=
  [(tweetsKey "alice", .tweetsVal [exCachedThreadTweet, exCachedPostTweet])]

/-! Helper lemmas about the cache store. -/

/-- Setting a key then reading it returns the new value. -/
theorem cacheGet_set_same (c : Cache) (k : String) (v : CacheValue) :
    cacheGet (cacheSet c k v) k = some v := by
  simp [cacheGet, cacheSet, List.find?_cons_of_pos]

/-- Setting a key leaves every other key unchanged. -/
theorem cacheGet_set_ne (c : Cache) (k k2 : String) (v : CacheValue) (h : k ≠ k2) :
    cacheGet (cacheSet c k v) k2 = cacheGet c k2 := by
  simp only [cacheGet, cacheSet]
  rw [List.find?_cons_of_neg]
  simp [h]

/-- The profile key and the tweets key of a handle never collide. -/
theorem userKey_ne_tweetsKey (u : String) : userKey u ≠ tweetsKey u := by
  intro h
  have hlen := congrArg String.length h
  rw [userKey, tweetsKey, String.length_append, String.length_append] at hlen
  have h5 : ("user:" : String).length = 5 := rfl
  have h7 : ("tweets:" : String).length = 7 := rfl
  omega

/-! Helper lemmas about the dedup loop. -/

/-- Every tweet surviving the dedup loop has an id outside the seen
accumulator. -/
theorem mem_dedupe_id_not_seen {t : Tweet} :
    ∀ (l : List Tweet) (seen : List String), t ∈ dedupeTweets l seen → t.id ∉ seen := by
  intro l
  induction l with
  | nil => intro seen h; simp [dedupeTweets] at h
  | cons x xs ih =>
    intro seen h
    by_cases hx : x.id ∈ seen
    · rw [dedupeTweets, if_pos hx] at h
      exact ih seen h
    · rw [dedupeTweets, if_neg hx] at h
      rcases List.mem_cons.mp h with h1 | h2
      · subst h1; exact hx
      · intro hs
        exact ih (x.id :: seen) h2 (List.mem_cons_of_mem _ hs)

/-- The dedup loop returns a sublist of its input, so the order of first
appearance across the concatenated batches is preserved. -/
theorem dedupe_sublist :
    ∀ (l : List Tweet) (seen : List String), List.Sublist (dedupeTweets l seen) l := by
  intro l
  induction l with
  | nil => intro seen; simp [dedupeTweets]
  | cons x xs ih =>
    intro seen
    by_cases hx : x.id ∈ seen
    · rw [dedupeTweets, if_pos hx]
      exact (ih seen).cons x
    · rw [dedupeTweets, if_neg hx]
      exact (ih (x.id :: seen)).cons₂ x

/-- The ids surviving the dedup loop are pairwise distinct. -/
theorem dedupe_ids_nodup :
    ∀ (l : List Tweet) (seen : List String), ((dedupeTweets l seen).map (fun t => t.id)).Nodup := by
  intro l
  induction l with
  | nil => intro seen; simp [dedupeTweets]
  | cons x xs ih =>
    intro seen
    by_cases hx : x.id ∈ seen
    · rw [dedupeTweets, if_pos hx]; exact ih seen
    · rw [dedupeTweets, if_neg hx]
      simp only [List.map_cons, List.nodup_cons]
      refine ⟨fun hmem => ?_, ih (x.id :: seen)⟩
      rcases List.mem_map.mp hmem with ⟨u, hu, hid⟩
      exact mem_dedupe_id_not_seen xs (x.id :: seen) hu (hid ▸ List.mem_cons_self _ _)

/-- The dedup loop keeps exactly the first occurrence of each id whose id
is not already in the seen accumulator. -/
theorem dedupe_first_occurrence (t : Tweet) :
    ∀ (l : List Tweet) (seen : List String), t.id ∉ seen →
      (t ∈ dedupeTweets l seen ↔ l.find? (fun u => u.id == t.id) = some t) := by
  intro l
  induction l with
  | nil => intro seen _; simp [dedupeTweets]
  | cons x xs ih =>
    intro seen hseen
    by_cases hx : x.id ∈ seen
    · rw [dedupeTweets, if_pos hx]
      have hne : ¬((fun u : Tweet => u.id == t.id) x) = true := by
        simp only [beq_iff_eq]
        intro hxt
        exact hseen (hxt ▸ hx)
      rw [@List.find?_cons_of_neg _ (fun u => u.id == t.id) x xs hne]
      exact ih seen hseen
    · rw [dedupeTweets, if_neg hx]
      by_cases hid : x.id = t.id
      · rw [@List.find?_cons_of_pos _ (fun u => u.id == t.id) x xs (by simp [hid])]
        constructor
        · intro hmem
          rcases List.mem_cons.mp hmem with h1 | h2
          · rw [h1]
          · exact absurd (hid ▸ List.mem_cons_self x.id seen)
              (mem_dedupe_id_not_seen xs (x.id :: seen) h2)
        · intro hsome
          have hxt : x = t := Option.some_inj.mp hsome
          rw [← hxt]
          exact List.mem_cons_self x _
      · rw [@List.find?_cons_of_neg _ (fun u => u.id == t.id) x xs (by simp [hid])]
        have htail : t.id ∉ x.id :: seen := by
          intro hmem
          rcases List.mem_cons.mp hmem with h1 | h2
          · exact hid h1.symm
          · exact hseen h2
        rw [← ih (x.id :: seen) htail]
        constructor
        · intro hmem
          rcases List.mem_cons.mp hmem with h1 | h2
          · subst h1
            exact absurd rfl hid
          · exact h2
        · intro hmem
          exact List.mem_cons_of_mem x hmem

/-! Helper lemmas about the stable descending sort. -/

/-- The sort step permutes its input. -/
theorem sortTweetsDesc_perm (l : List Tweet) : (sortTweetsDesc l).Perm l :=
  List.perm_insertionSort tweetGE l

/-- The sort step yields a non-increasing sequence of creation times. -/
theorem sortTweetsDesc_sorted (l : List Tweet) :
    (sortTweetsDesc l).Pairwise (fun a b => b.created_at ≤ a.created_at) :=
  List.sorted_insertionSort tweetGE l

/-- Stability of the sort step: the subsequence of tweets with any fixed
creation time is exactly the one of the input. -/
theorem sortTweetsDesc_filter_stable (l : List Tweet) (k : Nat) :
    (sortTweetsDesc l).filter (fun t => t.created_at == k)
      = l.filter (fun t => t.created_at == k) := by
  set p : Tweet → Bool := fun t => t.created_at == k with hp
  have hall : ∀ a ∈ l.filter p, p a = true := fun a ha => (List.mem_filter.mp ha).2
  have hsorted : (l.filter p).Pairwise tweetGE := by
    apply List.pairwise_of_forall_mem_list
    intro a ha b hb
    have ha2 : a.created_at = k := by simpa [hp] using hall a ha
    have hb2 : b.created_at = k := by simpa [hp] using hall b hb
    show b.created_at ≤ a.created_at
    rw [ha2, hb2]
  have h1 : List.Sublist (l.filter p) (sortTweetsDesc l) :=
    List.sublist_insertionSort hsorted (List.filter_sublist l)
  have h2 : List.Sublist (l.filter p) ((sortTweetsDesc l).filter p) := by
    have h3 := h1.filter p
    rwa [List.filter_eq_self.mpr hall] at h3
  have hperm : ((sortTweetsDesc l).filter p).Perm (l.filter p) := (sortTweetsDesc_perm l).filter p
  exact (h2.eq_of_length hperm.length_eq.symm).symm

/-! Helper lemmas about the refresh operation. -/

/-- Shape of a successful refresh: both upstream fetches succeeded and the
final cache is the input cache with the profile written first and the
processed tweet list written second. -/
theorem refresh_success_shape (up : Upstream) (c : Cache) (u : String) :
    (refresh_user_tweets_cache up c u).2.1 = .ok () →
    ∃ user b1 b2, up.get_user_by_screen_name u = .ok user ∧
      up.get_tweets user "Tweets" = .ok b1 ∧
      up.get_tweets user "Replies" = .ok b2 ∧
      refresh_user_tweets_cache up c u =
        (cacheSet (cacheSet c (userKey u) (.profileVal (profileOf user)))
           (tweetsKey u) (.tweetsVal ((mergedTweets b1 b2).map processTweet)),
         .ok (), 3) := by
  intro hok
  cases hu : up.get_user_by_screen_name u with
  | error e =>
    exfalso
    simp [refresh_user_tweets_cache, hu] at hok
  | ok user =>
    cases h1 : up.get_tweets user "Tweets" with
    | error e =>
      exfalso
      simp [refresh_user_tweets_cache, hu, h1] at hok
    | ok batch1 =>
      cases h2 : up.get_tweets user "Replies" with
      | error e =>
        exfalso
        simp [refresh_user_tweets_cache, hu, h1, h2] at hok
      | ok batch2 =>
        refine ⟨user, batch1, batch2, rfl, h1, h2, ?_⟩
        simp [refresh_user_tweets_cache, hu, h1, h2]

/-! Claim theorems. -/

/-- C4: _get_tweet_type is total and deterministic: for every tweet it
returns exactly one of the five types Thread, Retweet, Reply, Quote,
Post, by first-match precedence (thread membership, else retweet source,
else reply signal, else quote flag, else Post); in particular a post that
is both a reply and in a thread is classified Thread. -/
theorem tweet_type_spec :
    ∀ t : Tweet,
      (_get_tweet_type t = "Thread" ∨ _get_tweet_type t = "Retweet"
        ∨ _get_tweet_type t = "Reply" ∨ _get_tweet_type t = "Quote"
        ∨ _get_tweet_type t = "Post") ∧
      (t.thread.isSome = true → _get_tweet_type t = "Thread") ∧
      (t.thread = none → t.retweeted_tweet.isSome = true →
        _get_tweet_type t = "Retweet") ∧
      (t.thread = none → t.retweeted_tweet = none →
        ((∃ l, t.replies = some l ∧ 0 < l.length) ∨ t.in_reply_to.isSome = true) →
        _get_tweet_type t = "Reply") ∧
      (t.thread = none → t.retweeted_tweet = none →
        (∀ l, t.replies = some l → l.length = 0) → t.in_reply_to = none →
        t.is_quote_status = true → _get_tweet_type t = "Quote") ∧
      (t.thread = none → t.retweeted_tweet = none →
        (∀ l, t.replies = some l → l.length = 0) → t.in_reply_to = none →
        t.is_quote_status = false → _get_tweet_type t = "Post") ∧
      (t.in_reply_to.isSome = true → t.thread.isSome = true →
        _get_tweet_type t = "Thread") := by
  intro t
  refine ⟨?_, ?_, ?_, ?_, ?_, ?_, ?_⟩
  · unfold _get_tweet_type
    split_ifs <;> simp
  · intro h
    simp [_get_tweet_type, h]
  · intro h1 h2
    simp [_get_tweet_type, h1, h2]
  · intro h1 h2 h3
    rcases h3 with ⟨l, hl, hlen⟩ | hr
    · simp [_get_tweet_type, h1, h2, hl, hlen]
    · simp [_get_tweet_type, h1, h2, hr]
  · intro h1 h2 h3 h4 h5
    cases hrep : t.replies with
    | none => simp [_get_tweet_type, h1, h2, h4, h5, hrep]
    | some l =>
      have hlen := h3 l hrep
      simp [_get_tweet_type, h1, h2, h4, h5, hrep, hlen]
  · intro h1 h2 h3 h4 h5
    cases hrep : t.replies with
    | none => simp [_get_tweet_type, h1, h2, h4, h5, hrep]
    | some l =>
      have hlen := h3 l hrep
      simp [_get_tweet_type, h1, h2, h4, h5, hrep, hlen]
  · intro _ h
    simp [_get_tweet_type, h]

/-- Witness for C4: the classifier instantiated on the fixture tweets,
including the reply-inside-a-thread tweet, which is classified Thread. -/
theorem tweet_type_spec_witness :
    exTweetThread.in_reply_to.isSome = true ∧ exTweetThread.thread.isSome = true ∧
    _get_tweet_type exTweetThread = "Thread" ∧
    exTweetReply.thread = none ∧ exTweetReply.retweeted_tweet = none ∧
    _get_tweet_type exTweetReply = "Reply" :=
  ⟨rfl, rfl,
   (tweet_type_spec exTweetThread).2.2.2.2.2.2 rfl rfl,
   rfl, rfl,
   (tweet_type_spec exTweetReply).2.2.2.1 rfl rfl (Or.inr rfl)⟩

/-- C6: clean_tweet returns the substring starting two characters after
the first colon when the text begins with the retweet marker and contains
a colon, and returns the text unchanged otherwise; together with the four
concrete examples of the spec. -/
theorem clean_tweet_spec :
    (∀ s : List Char,
      (rtMarker.isPrefixOf s = true →
        (∀ i, s.findIdx? (fun c => c == ':') = some i →
          clean_tweet s = s.drop (i + 2)) ∧
        (s.findIdx? (fun c => c == ':') = none → clean_tweet s = s)) ∧
      (rtMarker.isPrefixOf s = false → clean_tweet s = s)) ∧
    clean_tweet "RT @user: hello".toList = "hello".toList ∧
    clean_tweet "RT @user123: a: b: c".toList = "a: b: c".toList ∧
    clean_tweet "plain text".toList = "plain text".toList ∧
    clean_tweet "RT @user no colon".toList = "RT @user no colon".toList := by
  refine ⟨fun s => ⟨fun hpre => ⟨fun i hi => ?_, fun hn => ?_⟩, fun hnp => ?_⟩,
    by decide, by decide, by decide, by decide⟩
  · simp [clean_tweet, hpre, hi]
  · simp [clean_tweet, hpre, hn]
  · simp [clean_tweet, hnp]

/-- Witness for C6: the general clauses instantiated on concrete texts
(the marker-and-colon case at index 8, and the two unchanged cases). -/
theorem clean_tweet_spec_witness :
    rtMarker.isPrefixOf "RT @user: hello".toList = true ∧
    "RT @user: hello".toList.findIdx? (fun c => c == ':') = some 8 ∧
    clean_tweet "RT @user: hello".toList = "RT @user: hello".toList.drop 10 ∧
    clean_tweet "plain text".toList = "plain text".toList ∧
    clean_tweet "RT @user no colon".toList = "RT @user no colon".toList :=
  ⟨by decide, by decide,
   ((clean_tweet_spec.1 "RT @user: hello".toList).1 (by decide)).1 8 (by decide),
   (clean_tweet_spec.1 "plain text".toList).2 (by decide),
   ((clean_tweet_spec.1 "RT @user no colon".toList).1 (by decide)).2 (by decide)⟩

/-- C5: the merge step of the refresh pipeline keeps exactly the first
occurrence of each unique id in batch-then-within-batch order (a sublist
of the concatenated batches with pairwise distinct ids, containing a
tweet exactly when it is the first occurrence of its id), has length at
most the total input length, is sorted non-increasing by parsed creation
time, and is stable (tweets of equal timestamp keep their relative order
from the dedup step). -/
theorem dedupe_sort_spec :
    ∀ b1 b2 : List Tweet,
      ((mergedTweets b1 b2).map (fun t => t.id)).Nodup ∧
      (mergedTweets b1 b2).length ≤ b1.length + b2.length ∧
      (mergedTweets b1 b2).Pairwise (fun a b => b.created_at ≤ a.created_at) ∧
      (∀ k, (mergedTweets b1 b2).filter (fun t => t.created_at == k)
        = (dedupeTweets (b1 ++ b2) []).filter (fun t => t.created_at == k)) ∧
      List.Sublist (dedupeTweets (b1 ++ b2) []) (b1 ++ b2) ∧
      (∀ t, t ∈ dedupeTweets (b1 ++ b2) [] ↔
        (b1 ++ b2).find? (fun u => u.id == t.id) = some t) := by
  intro b1 b2
  refine ⟨?_, ?_, sortTweetsDesc_sorted _, fun k => sortTweetsDesc_filter_stable _ k,
    dedupe_sublist _ [], fun t => dedupe_first_occurrence t _ [] (by simp)⟩
  · exact (((sortTweetsDesc_perm _).map (fun t => t.id)).nodup_iff).mpr
      (dedupe_ids_nodup _ [])
  · calc (mergedTweets b1 b2).length
        = (dedupeTweets (b1 ++ b2) []).length := (sortTweetsDesc_perm _).length_eq
      _ ≤ (b1 ++ b2).length := (dedupe_sublist _ []).length_le
      _ = b1.length + b2.length := List.length_append _ _

/-- Witness for C5: the merge step on the two batches of the spec's
section-8 scenario, whose merged output is the reply 3, the retweet 2,
then the post 1. -/
theorem dedupe_sort_spec_witness :
    ((mergedTweets [exTweetPost, exTweetRetweet] [exTweetRetweet, exTweetReply]).map
        (fun t => t.id)).Nodup ∧
    (mergedTweets [exTweetPost, exTweetRetweet] [exTweetRetweet, exTweetReply]).map
        (fun t => t.id) = ["3", "2", "1"] :=
  ⟨(dedupe_sort_spec [exTweetPost, exTweetRetweet] [exTweetRetweet, exTweetReply]).1,
   by decide⟩

/-- Membership in the endpoint filter implies the tweet's type is one
enabled by the flags. -/
theorem mem_filterTweets {ip ir irt iq : Bool} {ts : List ProcessedTweet}
    {t : ProcessedTweet} (h : t ∈ filterTweets ip ir irt iq ts) :
    (ip = true ∧ t.type = "Post") ∨ (ir = true ∧ t.type = "Reply")
    ∨ (irt = true ∧ t.type = "Retweet") ∨ (iq = true ∧ t.type = "Quote") := by
  have h2 := (List.mem_filter.mp h).2
  simp only [Bool.or_eq_true, Bool.and_eq_true, beq_iff_eq] at h2
  tauto

/-- C1: read-through caching: when the tweets key holds a cached list,
get_cached_tweets returns it with the cache untouched and zero upstream
calls; when the key is absent, get_cached_tweets performs exactly the
upstream calls of one refresh_user_tweets_cache invocation, leaves the
cache as that refresh left it, and on refresh success returns the
now-populated cache entry. -/
theorem read_through_spec :
    ∀ (up : Upstream) (c : Cache) (u : String),
      (∀ ts, cacheGet c (tweetsKey u) = some (.tweetsVal ts) →
        get_cached_tweets up c u = (c, .ok ts, 0)) ∧
      (cacheGet c (tweetsKey u) = none →
        (get_cached_tweets up c u).1 = (refresh_user_tweets_cache up c u).1 ∧
        (get_cached_tweets up c u).2.2 = (refresh_user_tweets_cache up c u).2.2 ∧
        ((refresh_user_tweets_cache up c u).2.1 = .ok () →
          ∃ ts, cacheGet (refresh_user_tweets_cache up c u).1 (tweetsKey u)
              = some (.tweetsVal ts) ∧
            (get_cached_tweets up c u).2.1 = .ok ts)) := by
  intro up c u
  constructor
  · intro ts h
    simp [get_cached_tweets, h, asTweetList]
  · intro hmiss
    cases hu : up.get_user_by_screen_name u with
    | error e =>
      refine ⟨?_, ?_, ?_⟩ <;>
        simp [get_cached_tweets, refresh_user_tweets_cache, hmiss, hu]
    | ok user =>
      cases h1 : up.get_tweets user "Tweets" with
      | error e =>
        refine ⟨?_, ?_, ?_⟩ <;>
          simp [get_cached_tweets, refresh_user_tweets_cache, hmiss, hu, h1]
      | ok bb1 =>
        cases h2 : up.get_tweets user "Replies" with
        | error e =>
          refine ⟨?_, ?_, ?_⟩ <;>
            simp [get_cached_tweets, refresh_user_tweets_cache, hmiss, hu, h1, h2]
        | ok bb2 =>
          have hget : cacheGet
              (cacheSet (cacheSet c (userKey u) (.profileVal (profileOf user)))
                (tweetsKey u) (.tweetsVal ((mergedTweets bb1 bb2).map processTweet)))
              (tweetsKey u)
              = some (.tweetsVal ((mergedTweets bb1 bb2).map processTweet)) :=
            cacheGet_set_same _ _ _
          refine ⟨?_, ?_,
            fun _ => ⟨(mergedTweets bb1 bb2).map processTweet, ?_, ?_⟩⟩
          · simp [get_cached_tweets, refresh_user_tweets_cache, hmiss, hu, h1, h2, hget]
          · simp [get_cached_tweets, refresh_user_tweets_cache, hmiss, hu, h1, h2, hget]
          · simp [refresh_user_tweets_cache, hu, h1, h2, hget]
          · simp [get_cached_tweets, refresh_user_tweets_cache, hmiss, hu, h1, h2, hget,
              asTweetList]

/-- Witness for C1: a warm cache for alice is served untouched with zero
upstream calls; on a cold cache the read-through leaves the cache exactly
as one refresh invocation does. -/
theorem read_through_spec_witness :
    cacheGet exCacheWithTweets (tweetsKey "alice")
      = some (.tweetsVal [exCachedThreadTweet, exCachedPostTweet]) ∧
    get_cached_tweets exUpstream exCacheWithTweets "alice"
      = (exCacheWithTweets, .ok [exCachedThreadTweet, exCachedPostTweet], 0) ∧
    cacheGet ([] : Cache) (tweetsKey "alice") = none ∧
    (get_cached_tweets exUpstream [] "alice").1
      = (refresh_user_tweets_cache exUpstream [] "alice").1 :=
  ⟨by decide,
   (read_through_spec exUpstream exCacheWithTweets "alice").1 _ (by decide),
   by decide,
   ((read_through_spec exUpstream [] "alice").2 (by decide)).1⟩

/-- C2 counterexample: an upstream whose user lookup succeeds but whose
tweet fetch fails transiently: the refresh propagates the transient
error, yet the profile cache entry that existed before the call has been
overwritten (the claim requires every pre-existing entry, profile
included, to be unchanged). -/
theorem refresh_transient_cex :
    (refresh_user_tweets_cache exUpstreamTweetsFail exCacheWithProfile "alice").2.1
      = .error (.upstreamError "boom") ∧
    cacheGet exCacheWithProfile (userKey "alice") = some (.profileVal exOldProfile) ∧
    cacheGet (refresh_user_tweets_cache exUpstreamTweetsFail exCacheWithProfile "alice").1
        (userKey "alice") = some (.profileVal (profileOf exUser)) ∧
    ¬ cacheGet (refresh_user_tweets_cache exUpstreamTweetsFail exCacheWithProfile "alice").1
        (userKey "alice") = cacheGet exCacheWithProfile (userKey "alice") := by
  refine ⟨by decide, by decide, by decide, by decide⟩

/-- C2 amended: on a transient (non-not-found) upstream error the posts
cache entry is always unchanged and the error is propagated; the whole
cache (profile entry included) is unchanged when the failure occurs in
the user lookup, before the profile write. -/
theorem refresh_transient_amended :
    ∀ (up : Upstream) (c : Cache) (u : String),
      (∀ m, (refresh_user_tweets_cache up c u).2.1 = .error (.upstreamError m) →
        cacheGet (refresh_user_tweets_cache up c u).1 (tweetsKey u)
          = cacheGet c (tweetsKey u)) ∧
      (∀ e, up.get_user_by_screen_name u = .error e →
        (refresh_user_tweets_cache up c u).1 = c) ∧
      (∀ m, up.get_user_by_screen_name u = .error (.transient m) →
        (refresh_user_tweets_cache up c u).2.1 = .error (.upstreamError m)) := by
  intro up c u
  refine ⟨?_, ?_, ?_⟩
  · intro m herr
    cases hu : up.get_user_by_screen_name u with
    | error e => simp [refresh_user_tweets_cache, hu]
    | ok user =>
      cases h1 : up.get_tweets user "Tweets" with
      | error e =>
        simp only [refresh_user_tweets_cache, hu, h1]
        exact cacheGet_set_ne c _ _ _ (userKey_ne_tweetsKey u)
      | ok bb1 =>
        cases h2 : up.get_tweets user "Replies" with
        | error e =>
          simp only [refresh_user_tweets_cache, hu, h1, h2]
          exact cacheGet_set_ne c _ _ _ (userKey_ne_tweetsKey u)
        | ok bb2 =>
          exfalso
          simp [refresh_user_tweets_cache, hu, h1, h2] at herr
  · intro e he
    simp [refresh_user_tweets_cache, he]
  · intro m hm
    simp [refresh_user_tweets_cache, hm, refreshErrorOf]

/-- Witness for C2 amended: the transiently failing fixture propagates
the error and leaves the (absent) posts entry unchanged. -/
theorem refresh_transient_amended_witness :
    (refresh_user_tweets_cache exUpstreamTweetsFail exCacheWithProfile "alice").2.1
      = .error (.upstreamError "boom") ∧
    cacheGet (refresh_user_tweets_cache exUpstreamTweetsFail exCacheWithProfile "alice").1
        (tweetsKey "alice") = cacheGet exCacheWithProfile (tweetsKey "alice") :=
  ⟨by decide,
   (refresh_transient_amended exUpstreamTweetsFail exCacheWithProfile "alice").1
     "boom" (by decide)⟩

/-- C3: when the upstream reports the handle as not found, the refresh
propagates a 404 NotFound error to its caller, writes nothing to the
cache, and performs exactly the one failed lookup (no retry, no further
fetches). -/
theorem refresh_not_found_spec :
    ∀ (up : Upstream) (c : Cache) (u : String),
      up.get_user_by_screen_name u = .error .userNotFound →
      refresh_user_tweets_cache up c u
        = (c, .error (.httpException 404 "User not found"), 1) := by
  intro up c u h
  simp [refresh_user_tweets_cache, h, refreshErrorOf]

/-- Witness for C3: the not-found fixture upstream, with a non-empty
starting cache left untouched. -/
theorem refresh_not_found_spec_witness :
    exUpstreamNotFound.get_user_by_screen_name "alice" = .error .userNotFound ∧
    refresh_user_tweets_cache exUpstreamNotFound exCacheWithProfile "alice"
      = (exCacheWithProfile, .error (.httpException 404 "User not found"), 1) :=
  ⟨rfl, refresh_not_found_spec exUpstreamNotFound exCacheWithProfile "alice" rfl⟩

/-- C7: the refresh writes the full unfiltered, fully classified post
list into the cache; the cache state after the endpoint pipeline is
independent of the include flags; the returned list is the flag filter
applied after retrieval; and every returned post's type matches an
enabled flag. -/
theorem post_cache_filtering_spec :
    ∀ (up : Upstream) (c : Cache) (u : String) (user : TUser) (b1 b2 : List Tweet)
      (ip ir irt iq ip2 ir2 irt2 iq2 : Bool),
      (up.get_user_by_screen_name u = .ok user →
        up.get_tweets user "Tweets" = .ok b1 →
        up.get_tweets user "Replies" = .ok b2 →
        cacheGet (refresh_user_tweets_cache up c u).1 (tweetsKey u)
          = some (.tweetsVal ((mergedTweets b1 b2).map processTweet))) ∧
      (get_tweets_for_user up c u ip ir irt iq).1
        = (get_tweets_for_user up c u ip2 ir2 irt2 iq2).1 ∧
      (∀ ts, (get_cached_tweets up c u).2.1 = .ok ts →
        (get_tweets_for_user up c u ip ir irt iq).2.1
          = .ok (filterTweets ip ir irt iq ts)) ∧
      (∀ out t, (get_tweets_for_user up c u ip ir irt iq).2.1 = .ok out → t ∈ out →
        (ip = true ∧ t.type = "Post") ∨ (ir = true ∧ t.type = "Reply")
        ∨ (irt = true ∧ t.type = "Retweet") ∨ (iq = true ∧ t.type = "Quote")) := by
  intro up c u user b1 b2 ip ir irt iq ip2 ir2 irt2 iq2
  refine ⟨?_, ?_, ?_, ?_⟩
  · intro hu h1 h2
    simp [refresh_user_tweets_cache, hu, h1, h2, cacheGet_set_same]
  · rcases hG : get_cached_tweets up c u with ⟨c2, r, n⟩
    simp [get_tweets_for_user, hG]
  · intro ts hts
    rcases hG : get_cached_tweets up c u with ⟨c2, r, n⟩
    rw [hG] at hts
    simp only at hts
    simp [get_tweets_for_user, hG, hts, Except.map]
  · intro out t hout hmem
    rcases hG : get_cached_tweets up c u with ⟨c2, r, n⟩
    simp only [get_tweets_for_user] at hout
    rw [hG] at hout
    cases r with
    | error e => simp [Except.map] at hout
    | ok ts =>
      simp [Except.map] at hout
      rw [← hout] at hmem
      exact mem_filterTweets hmem

/-- Witness for C7: the section-8 scenario written through an empty
cache, then filtered with only posts and retweets enabled. -/
theorem post_cache_filtering_spec_witness :
    exUpstream.get_user_by_screen_name "alice" = .ok exUser ∧
    cacheGet (refresh_user_tweets_cache exUpstream [] "alice").1 (tweetsKey "alice")
      = some (.tweetsVal ((mergedTweets [exTweetPost, exTweetRetweet]
          [exTweetRetweet, exTweetReply]).map processTweet)) ∧
    (get_tweets_for_user exUpstream [] "alice" true false true false).2.1
      = .ok (filterTweets true false true false
          ((mergedTweets [exTweetPost, exTweetRetweet]
            [exTweetRetweet, exTweetReply]).map processTweet)) :=
  ⟨rfl,
   (post_cache_filtering_spec exUpstream [] "alice" exUser
      [exTweetPost, exTweetRetweet] [exTweetRetweet, exTweetReply]
      true false true false false false false false).1 rfl rfl rfl,
   (post_cache_filtering_spec exUpstream [] "alice" exUser
      [exTweetPost, exTweetRetweet] [exTweetRetweet, exTweetReply]
      true false true false false false false false).2.2.1 _ (by decide)⟩

/-- C8 counterexample: a successful refresh for alice stores its data,
yet nothing is written under the keys profile:alice or posts:alice named
by the claim; the entries live under user:alice and tweets:alice. -/
theorem cache_keys_cex :
    (refresh_user_tweets_cache exUpstream [] "alice").2.1 = .ok () ∧
    cacheGet (refresh_user_tweets_cache exUpstream [] "alice").1 ("profile:" ++ "alice")
      = none ∧
    cacheGet (refresh_user_tweets_cache exUpstream [] "alice").1 ("posts:" ++ "alice")
      = none ∧
    (cacheGet (refresh_user_tweets_cache exUpstream [] "alice").1 ("user:" ++ "alice")).isSome
      = true ∧
    (cacheGet (refresh_user_tweets_cache exUpstream [] "alice").1
        ("tweets:" ++ "alice")).isSome = true := by
  refine ⟨by decide, by decide, by decide, by decide, by decide⟩

/-- C8 amended: the refresh writes the profile snapshot under the key
user: followed by the handle and the post list under tweets: followed by
the handle, and the read operations query those same keys. -/
theorem cache_keys_amended :
    ∀ (up : Upstream) (c : Cache) (u : String) (user : TUser),
      (up.get_user_by_screen_name u = .ok user →
        cacheGet (refresh_user_tweets_cache up c u).1 (userKey u)
          = some (.profileVal (profileOf user))) ∧
      ((refresh_user_tweets_cache up c u).2.1 = .ok () →
        ∃ ts, cacheGet (refresh_user_tweets_cache up c u).1 (tweetsKey u)
            = some (.tweetsVal ts) ∧
          get_cached_tweets up (refresh_user_tweets_cache up c u).1 u
            = ((refresh_user_tweets_cache up c u).1, .ok ts, 0)) ∧
      (∀ p, get_cached_user (cacheSet c (userKey u) (.profileVal p)) u = some p) := by
  intro up c u user
  refine ⟨?_, ?_, ?_⟩
  · intro hu
    cases h1 : up.get_tweets user "Tweets" with
    | error e =>
      simp only [refresh_user_tweets_cache, hu, h1]
      exact cacheGet_set_same _ _ _
    | ok bb1 =>
      cases h2 : up.get_tweets user "Replies" with
      | error e =>
        simp only [refresh_user_tweets_cache, hu, h1, h2]
        exact cacheGet_set_same _ _ _
      | ok bb2 =>
        simp only [refresh_user_tweets_cache, hu, h1, h2]
        rw [cacheGet_set_ne _ _ _ _ (userKey_ne_tweetsKey u).symm]
        exact cacheGet_set_same _ _ _
  · intro hok
    obtain ⟨user2, bb1, bb2, hu, h1, h2, hshape⟩ := refresh_success_shape up c u hok
    rw [hshape]
    refine ⟨(mergedTweets bb1 bb2).map processTweet, cacheGet_set_same _ _ _, ?_⟩
    simp [get_cached_tweets, cacheGet_set_same, asTweetList]
  · intro p
    simp [get_cached_user, cacheGet_set_same]

/-- Witness for C8 amended: alice's profile and posts land under the
user: and tweets: keys on the fixture upstream. -/
theorem cache_keys_amended_witness :
    exUpstream.get_user_by_screen_name "alice" = .ok exUser ∧
    cacheGet (refresh_user_tweets_cache exUpstream [] "alice").1 (userKey "alice")
      = some (.profileVal (profileOf exUser)) ∧
    (∃ ts, cacheGet (refresh_user_tweets_cache exUpstream [] "alice").1 (tweetsKey "alice")
        = some (.tweetsVal ts) ∧
      get_cached_tweets exUpstream (refresh_user_tweets_cache exUpstream [] "alice").1 "alice"
        = ((refresh_user_tweets_cache exUpstream [] "alice").1, .ok ts, 0)) ∧
    get_cached_user (cacheSet [] (userKey "alice") (.profileVal exOldProfile)) "alice"
      = some exOldProfile :=
  ⟨rfl,
   (cache_keys_amended exUpstream [] "alice" exUser).1 rfl,
   (cache_keys_amended exUpstream [] "alice" exUser).2.1 (by decide),
   (cache_keys_amended exUpstream [] "alice" exUser).2.2 exOldProfile⟩

/-- C10: no post whose type is Thread ever appears in the endpoint
output, for any flag combination: the filter enumerates only the Post,
Reply, Retweet and Quote types; yet the classifier can produce the
Thread type. -/
theorem no_thread_in_output_spec :
    (∀ (up : Upstream) (c : Cache) (u : String) (ip ir irt iq : Bool)
       (out : List ProcessedTweet) (t : ProcessedTweet),
      (get_tweets_for_user up c u ip ir irt iq).2.1 = .ok out → t ∈ out →
      ¬ t.type = "Thread") ∧
    _get_tweet_type exTweetThread = "Thread" := by
  constructor
  · intro up c u ip ir irt iq out t hout hmem hthread
    rcases hG : get_cached_tweets up c u with ⟨c2, r, n⟩
    simp only [get_tweets_for_user] at hout
    rw [hG] at hout
    cases r with
    | error e => simp [Except.map] at hout
    | ok ts =>
      simp [Except.map] at hout
      rw [← hout] at hmem
      rcases mem_filterTweets hmem with ⟨_, h⟩ | ⟨_, h⟩ | ⟨_, h⟩ | ⟨_, h⟩ <;>
        rw [hthread] at h <;> simp at h
  · rfl

/-- Witness for C10: a cache holding a Thread-typed and a Post-typed
tweet for alice; with every flag enabled the endpoint returns only the
Post-typed tweet. -/
theorem no_thread_in_output_spec_witness :
    (get_tweets_for_user exUpstream exCacheWithTweets "alice" true true true true).2.1
      = .ok [exCachedPostTweet] ∧
    ¬ exCachedPostTweet.type = "Thread" :=
  ⟨by decide,
   no_thread_in_output_spec.1 exUpstream exCacheWithTweets "alice" true true true true
     [exCachedPostTweet] exCachedPostTweet (by decide) (by decide)⟩

end XRSS
